import Mathlib

/-!
# Verification of the lokal coverage generator and route sequencer

Shallow embedding of the two core algorithms of the repository:

* `RouteOrderOptimizer` (src/applications/opt/RouteOrderOptimizer.py): the
  greedy route sequencer.  Coordinates and distances are embedded as exact
  rationals; the haversine distance function (numpy floating point and
  transcendental, hence not rational-computable) is passed as an explicit
  parameter `d : DistFn`, so every theorem about the selection logic holds for
  the code's actual distance function in particular.  Fallible pandas
  operations (`Series.idxmin` raises `ValueError` on an empty series) are
  embedded with `Option`, `none` modelling the raised exception.

* `GMapsOptimizer` (src/GooglePlacesAPI/GMapsOptimizer.py): the grid
  coverage generator.  The grid sweep, point-in-polygon tests and area
  attribution are embedded exactly over the rationals.  The two base grid
  steps (lines 93-97 of the source) are transcendental expressions
  (they involve pi and cosine); they are embedded separately over the real
  numbers (`lat_step_base`, `lon_step_base`), and the sweeping/emission body
  of `generate_circle_centers` (lines 99-129) takes the base step values as
  explicit rational arguments.

* shapely's `Polygon.contains` (an external dependency of the repository) is
  modelled by `Shapely.contains`: true exactly when the point lies in the
  interior of the polygon determined by the vertex list; points on the
  boundary are excluded, matching shapely's documented strict-containment
  semantics ("contains" requires the point to intersect the interior only).
-/

/-- A geographic point, `(latitude, longitude)`, embedded as exact rationals. -/
abbrev GeoPt := ℚ × ℚ

/-- The type of the distance function used by the route sequencer
(`RouteOrderOptimizer.haversine_distance` in the source: a float/transcendental
computation, kept as an explicit parameter of the embedding). -/
abbrev DistFn := GeoPt → GeoPt → ℚ

/-! ## Model of shapely point-in-polygon containment -/

namespace Shapely

/-- Is `p` on the closed segment from `a` to `b`?  (Exact rational test:
collinearity by cross product plus bounding-box membership.) -/
def onSegment (a b p : GeoPt) : Bool :=
  decide ((b.1 - a.1) * (p.2 - a.2) = (b.2 - a.2) * (p.1 - a.1)
    ∧ min a.1 b.1 ≤ p.1 ∧ p.1 ≤ max a.1 b.1
    ∧ min a.2 b.2 ≤ p.2 ∧ p.2 ≤ max a.2 b.2)

/-- The edge list of the polygon with vertex list `vs` (each vertex paired
with its cyclic successor; shapely closes the ring implicitly). -/
def polygonEdges (vs : List GeoPt) : List (GeoPt × GeoPt) :=
  vs.zip (vs.rotate 1)

/-- Is `p` on the boundary of the polygon with vertex list `vs`? -/
def onBoundary (vs : List GeoPt) (p : GeoPt) : Bool :=
  (polygonEdges vs).any (fun e => onSegment e.1 e.2 p)

/-- Does the edge from `a` to `b` cross the horizontal ray going left from
`p`?  Standard even-odd crossing rule with half-open vertex handling; the
division is exact rational division and the guard guarantees a nonzero
divisor. -/
def crossesRay (p a b : GeoPt) : Bool :=
  (decide (p.2 < a.2) != decide (p.2 < b.2))
    && decide (p.1 < a.1 + (b.1 - a.1) * (p.2 - a.2) / (b.2 - a.2))

/-- Number of polygon edges crossing the ray from `p`. -/
def crossCount (vs : List GeoPt) (p : GeoPt) : ℕ :=
  ((polygonEdges vs).filter (fun e => crossesRay p e.1 e.2)).length

/-- Model of shapely `Polygon(vs).contains(Point(p))`: `p` lies in the
interior of the polygon.  Boundary points are NOT contained (shapely's
strict-containment semantics); interior membership is the even-odd rule. -/
def contains (vs : List GeoPt) (p : GeoPt) : Bool :=
  !(onBoundary vs p) && decide (crossCount vs p % 2 = 1)

end Shapely

/-! ## RouteOrderOptimizer (src/applications/opt/RouteOrderOptimizer.py) -/

/-- One candidate row of the sequencer's DataFrame.  The caller supplies
`location_id`, `lat`, `long`, `indicator`; the `distance` and
`adjusted_distance` columns are (re)written by `calculate_distances` and
`divide_by_indicator` before every selection, so their initial values are
irrelevant (they default to 0 here, standing for the absent columns of the
caller's frame). -/
structure RRow where
  location_id : ℤ
  lat : ℚ
  long : ℚ
  indicator : ℚ
  distance : ℚ := 0
  adjusted_distance : ℚ := 0
deriving DecidableEq, Repr

/-- The mutable state of a `RouteOrderOptimizer` instance. -/
structure RouteOrderOptimizer where
  df : List RRow
  reference_point : GeoPt
  result_df : List RRow
  n_points : ℕ
deriving DecidableEq, Repr

/-- `__init__`: stores a copy of the caller's frame, the reference point and
the requested count; `result_df` starts empty. -/
def RouteOrderOptimizer.init (df : List RRow) (reference_point : GeoPt)
    (n_points : ℕ) : RouteOrderOptimizer :=
  { df := df, reference_point := reference_point, result_df := [], n_points := n_points }

/-- `calculate_distances`: writes the `distance` column, the distance from the
current reference point to each row (`d` is the haversine function). -/
def RouteOrderOptimizer.calculate_distances (d : DistFn) (s : RouteOrderOptimizer) :
    RouteOrderOptimizer :=
  { s with df := s.df.map (fun r => { r with distance := d s.reference_point (r.lat, r.long) }) }

/-- `divide_by_indicator`: writes the `adjusted_distance` column,
`distance / indicator` for each row. -/
def RouteOrderOptimizer.divide_by_indicator (s : RouteOrderOptimizer) :
    RouteOrderOptimizer :=
  { s with df := s.df.map (fun r => { r with adjusted_distance := r.distance / r.indicator }) }

/-- pandas `Series.idxmin` on the `adjusted_distance` column: the FIRST row
(in frame order) attaining the minimum value; `none` models the `ValueError`
pandas raises on an empty series. -/
def idxmin : List RRow → Option RRow
  | [] => none
  | r :: rs =>
    match idxmin rs with
    | none => some r
    | some m => if r.adjusted_distance ≤ m.adjusted_distance then some r else some m

/-- `select_nearest`: picks the `idxmin` row, appends it to `result_df`,
moves the reference point to it, and removes every row with its
`location_id` from the pool.  `none` propagates the pandas error on an empty
pool. -/
def RouteOrderOptimizer.select_nearest (s : RouteOrderOptimizer) :
    Option RouteOrderOptimizer :=
  match idxmin s.df with
  | none => none
  | some nr =>
    some { s with
      result_df := s.result_df ++ [nr]
      reference_point := (nr.lat, nr.long)
      df := s.df.filter (fun r => r.location_id ≠ nr.location_id) }

/-- The body of `iterate_selection`'s `for _ in range(n_points)` loop. -/
def RouteOrderOptimizer.iterate_aux (d : DistFn) :
    ℕ → RouteOrderOptimizer → Option RouteOrderOptimizer
  | 0, s => some s
  | n + 1, s =>
    match ((s.calculate_distances d).divide_by_indicator).select_nearest with
    | none => none
    | some s2 => RouteOrderOptimizer.iterate_aux d n s2

/-- `iterate_selection`: runs the selection loop `n_points` times and returns
the accumulated `result_df` (`reset_index(drop=True)` preserves the row
list); `none` models the run raising partway. -/
def RouteOrderOptimizer.iterate_selection (d : DistFn) (s : RouteOrderOptimizer) :
    Option (List RRow) :=
  (RouteOrderOptimizer.iterate_aux d s.n_points s).map (fun s2 => s2.result_df)

/-! ## GMapsOptimizer (src/GooglePlacesAPI/GMapsOptimizer.py) -/

/-- One row of the `boundary_dataframe` built by `generate_circle_centers`
(columns `lat`, `lon`, `radius`, `area_id`). -/
structure CRow where
  lat : ℚ
  lon : ℚ
  radius : ℚ
  area_id : ℤ
deriving DecidableEq, Repr

/-- The state of a `GMapsOptimizer` instance. -/
structure GMapsOptimizer where
  corner_sets : List (List GeoPt)
  radius : ℚ
  spacing_factor : ℚ
  earth_radius : ℚ
  circle_centers : List GeoPt
  boundary_dataframe : List CRow
  polygons : List (List GeoPt)
deriving DecidableEq, Repr

/-- `__init__` (source lines 8-33): stores the corner sets, radius and
spacing factor verbatim, sets the Earth radius constant, starts with empty
outputs, and builds one shapely polygon per corner set (modelled by the
vertex list itself).  Note: the source performs no validation of `radius` or
`spacing_factor`. -/
def GMapsOptimizer.init (corner_sets : List (List GeoPt)) (radius : ℚ)
    (spacing_factor : ℚ) : GMapsOptimizer :=
  { corner_sets := corner_sets
    radius := radius
    spacing_factor := spacing_factor
    earth_radius := 6371000
    circle_centers := []
    boundary_dataframe := []
    polygons := corner_sets }

/-- `_point_in_any_rectangle` (source lines 56-70): is the point inside any
of the stored polygons, by shapely containment? -/
def GMapsOptimizer.point_in_any_rectangle (self : GMapsOptimizer) (p : GeoPt) : Bool :=
  self.polygons.any (fun poly => Shapely.contains poly p)

/-- The attribution loop of `generate_circle_centers` (source lines 116-120):
`area_found` starts at -1 and is set to `i + 1` for the first polygon index
`i` (0-based, counted here by the accumulator) whose shapely containment test
accepts the point, with an immediate `break`. -/
def findAreaAux (i : ℤ) (polys : List (List GeoPt)) (p : GeoPt) : ℤ :=
  match polys with
  | [] => -1
  | poly :: rest => if Shapely.contains poly p then i else findAreaAux (i + 1) rest p

/-- `area_found` for a grid point: -1, or the 1-based index of the first
containing polygon. -/
def area_found (polys : List (List GeoPt)) (p : GeoPt) : ℤ :=
  findAreaAux 1 polys p

/-- `min(...)` over a nonempty Python list (source lines 86-89); 0 on the
empty list, which the source rules out before use. -/
def listMin : List ℚ → ℚ
  | [] => 0
  | x :: xs => xs.foldl min x

/-- `max(...)` over a nonempty Python list. -/
def listMax : List ℚ → ℚ
  | [] => 0
  | x :: xs => xs.foldl max x

/-- The latitudes of all corners of all corner sets (source line 78). -/
def all_lats (corner_sets : List (List GeoPt)) : List ℚ :=
  corner_sets.flatMap (fun cs => cs.map Prod.fst)

/-- The longitudes of all corners of all corner sets (source line 79). -/
def all_lons (corner_sets : List (List GeoPt)) : List ℚ :=
  corner_sets.flatMap (fun cs => cs.map Prod.snd)

/-- The scaling of a base grid step by the spacing factor
(source lines 103-104): `step *= (1 + spacing_factor)`. -/
def scaled_step (base spacing_factor : ℚ) : ℚ :=
  base * (1 + spacing_factor)

/-- The `while` loop `pos = minv; while pos <= maxv: ...; pos += step` of the
grid sweep (source lines 107-128), for a positive step: the list of visited
positions, by repeated exact addition of the step.  Well-founded recursion on
the remaining distance proves this loop terminates for every positive step. -/
def sweepPos (maxv step : ℚ) (hstep : 0 < step) (pos : ℚ) : List ℚ :=
  if pos ≤ maxv then pos :: sweepPos maxv step hstep (pos + step) else []
  termination_by Nat.ceil ((maxv - pos) / step + 1)
  decreasing_by
    rename_i hpos
    have hq : (0:ℚ) ≤ (maxv - pos) / step :=
      div_nonneg (by linarith) (le_of_lt hstep)
    have hshift : (maxv - (pos + step)) / step = (maxv - pos) / step - 1 := by
      field_simp
      ring
    have hceil : Nat.ceil ((maxv - pos) / step + 1) = Nat.ceil ((maxv - pos) / step) + 1 :=
      Nat.ceil_add_one hq
    have : (maxv - (pos + step)) / step + 1 = (maxv - pos) / step := by
      rw [hshift]; ring
    rw [this, hceil]
    exact Nat.lt_succ_self _

/-- The grid sweep loop; for a nonpositive step the source loop would not
terminate (never exercised: the source always derives a positive step from a
positive radius), the embedding returns `[]` there. -/
def sweep (minv maxv step : ℚ) : List ℚ :=
  if h : 0 < step then sweepPos maxv step h minv else []

/-- The rows emitted by the nested sweep of `generate_circle_centers`
(source lines 106-128): for each visited `(lat, lon)` grid point, if the
point is in any polygon, a row with the point, the radius, and the attributed
`area_found`. -/
def emitRows (polys : List (List GeoPt)) (radius : ℚ) (lats lons : List ℚ) : List CRow :=
  lats.flatMap (fun lat =>
    lons.filterMap (fun lon =>
      if (polys.any (fun poly => Shapely.contains poly (lat, lon)))
      then some { lat := lat, lon := lon, radius := radius,
                  area_id := area_found polys (lat, lon) }
      else none))

/-- The centers appended to `circle_centers` by the same sweep. -/
def emitCenters (polys : List (List GeoPt)) (lats lons : List ℚ) : List GeoPt :=
  lats.flatMap (fun lat =>
    lons.filterMap (fun lon =>
      if (polys.any (fun poly => Shapely.contains poly (lat, lon)))
      then some (lat, lon) else none))

/-- The body of `generate_circle_centers` (source lines 72-129) downstream of
the base-step computation: takes the two base grid steps (the transcendental
degree conversions of lines 93-97, see `lat_step_base` and `lon_step_base`)
as explicit arguments, scales them by `(1 + spacing_factor)`, sweeps the
bounding box of all corners, and appends the emitted centers and rows to the
state.  An empty corner list returns the state unchanged (early return,
source lines 81-83). -/
def GMapsOptimizer.generate_body (self : GMapsOptimizer)
    (baseLatStep baseLonStep : ℚ) : GMapsOptimizer :=
  if all_lats self.corner_sets = [] ∨ all_lons self.corner_sets = [] then self
  else
    let min_lat := listMin (all_lats self.corner_sets)
    let max_lat := listMax (all_lats self.corner_sets)
    let min_lon := listMin (all_lons self.corner_sets)
    let max_lon := listMax (all_lons self.corner_sets)
    let lat_step := scaled_step baseLatStep self.spacing_factor
    let lon_step := scaled_step baseLonStep self.spacing_factor
    let lats := sweep min_lat max_lat lat_step
    let lons := sweep min_lon max_lon lon_step
    { self with
      circle_centers := self.circle_centers ++ emitCenters self.polygons lats lons
      boundary_dataframe :=
        self.boundary_dataframe ++ emitRows self.polygons self.radius lats lons }

/-- The base latitude step in degrees (source line 93):
`radius / earth_radius * (180 / pi)`. -/
noncomputable def lat_step_base (radius : ℝ) : ℝ :=
  radius / 6371000 * (180 / Real.pi)

/-- The base longitude step in degrees at a reference latitude (source
lines 96-97): `radius / (earth_radius * cos(radians(ref_lat))) * (180 / pi)`. -/
noncomputable def lon_step_base (radius ref_lat : ℝ) : ℝ :=
  radius / (6371000 * Real.cos (ref_lat * Real.pi / 180)) * (180 / Real.pi)

/-- The reference latitude used by the source (line 96):
`max(abs(min_lat), abs(max_lat))`, the more poleward bounding latitude. -/
def ref_lat (min_lat max_lat : ℝ) : ℝ :=
  max |min_lat| |max_lat|

/-- Modelled from the spec: the claimed index-driven traversal, "row and
column positions are computed as min + i*step for integer i up to
ceil((max-min)/step)" (spec 4.3 step 5 / design note on index-based
stepping).  Used only to compare the claim's wording against the source's
`while` loop `sweep`. -/
def specIndexSweep (minv maxv step : ℚ) : List ℚ :=
  (List.range (Nat.ceil ((maxv - minv) / step) + 1)).map (fun i => minv + i * step)

/-- Modelled from the spec (section 4.3 contract / 7): a validating
constructor that rejects `radius_meters <= 0` and `spacing_factor` outside
`[0,1]` with `InvalidParameter` before any computation.  Used only to compare
the claimed fail-fast behavior against the source's `__init__`. -/
def specValidatingInit (corner_sets : List (List GeoPt)) (radius spacing_factor : ℚ) :
    Except String GMapsOptimizer :=
  if radius ≤ 0 then Except.error "InvalidParameter"
  else if spacing_factor < 0 ∨ 1 < spacing_factor then Except.error "InvalidParameter"
  else Except.ok (GMapsOptimizer.init corner_sets radius spacing_factor)

/-! ## Store-level model of RouteOrderOptimizer for the frame property

The value-level model above captures the functional behavior.  To state that
the caller's DataFrame object is never modified (the point of `df.copy()` on
source line 3, given that `calculate_distances` and `divide_by_indicator`
mutate `self.df` in place through `.loc`), DataFrames are modelled here as
references into an explicit store: `__init__` allocates a fresh cell holding
a copy of the caller's frame, in-place column writes update the cell the
optimizer owns, and `pd.concat` / filtering allocate fresh cells. -/

/-- A store of DataFrame objects, addressed by allocation index. -/
abbrev PdHeap := List (List RRow)

/-- Dereference a DataFrame object. -/
def heapRead (h : PdHeap) (r : ℕ) : List RRow :=
  h.getD r []

/-- In-place mutation of a DataFrame object (pandas `.loc` column write). -/
def heapWrite (h : PdHeap) (r : ℕ) (v : List RRow) : PdHeap :=
  h.set r v

/-- Allocation of a fresh DataFrame object. -/
def heapAlloc (h : PdHeap) (v : List RRow) : PdHeap × ℕ :=
  (h ++ [v], h.length)

/-- Store-level optimizer state: references to the owned working frame and
result frame, plus the reference point and requested count. -/
structure ROStore where
  dfRef : ℕ
  reference_point : GeoPt
  resRef : ℕ
  n_points : ℕ
deriving DecidableEq, Repr

/-- Store-level `__init__`: `self.df = df.copy()` allocates a fresh cell with
a copy of the caller's frame; `self.result_df = pd.DataFrame(...)` allocates
a fresh empty frame.  The caller's cell is only read. -/
def initStore (h : PdHeap) (callerDf : ℕ) (reference_point : GeoPt) (n_points : ℕ) :
    PdHeap × ROStore :=
  let a1 := heapAlloc h (heapRead h callerDf)
  let a2 := heapAlloc a1.1 []
  (a2.1, { dfRef := a1.2, reference_point := reference_point,
           resRef := a2.2, n_points := n_points })

/-- Store-level `calculate_distances`: in-place write of the `distance`
column on the owned working frame. -/
def calcStore (d : DistFn) (h : PdHeap) (s : ROStore) : PdHeap :=
  heapWrite h s.dfRef
    ((heapRead h s.dfRef).map
      (fun r => { r with distance := d s.reference_point (r.lat, r.long) }))

/-- Store-level `divide_by_indicator`: in-place write of the
`adjusted_distance` column on the owned working frame. -/
def divStore (h : PdHeap) (s : ROStore) : PdHeap :=
  heapWrite h s.dfRef
    ((heapRead h s.dfRef).map
      (fun r => { r with adjusted_distance := r.distance / r.indicator }))

/-- Store-level `select_nearest`: `pd.concat` allocates a fresh result frame
and the filter-plus-`.copy()` allocates a fresh working frame; the optimizer
rebinds its references to the new cells. -/
def selStore (h : PdHeap) (s : ROStore) : Option (PdHeap × ROStore) :=
  match idxmin (heapRead h s.dfRef) with
  | none => none
  | some nr =>
    let a1 := heapAlloc h (heapRead h s.resRef ++ [nr])
    let a2 := heapAlloc a1.1
      ((heapRead a1.1 s.dfRef).filter (fun r => r.location_id ≠ nr.location_id))
    some (a2.1, { s with dfRef := a2.2, resRef := a1.2,
                         reference_point := (nr.lat, nr.long) })

/-- Store-level selection loop; returns the store at normal or exceptional
exit, and the final state when no exception was raised. -/
def iterStore (d : DistFn) : ℕ → PdHeap → ROStore → PdHeap × Option ROStore
  | 0, h, s => (h, some s)
  | n + 1, h, s =>
    let h2 := divStore (calcStore d h s) s
    match selStore h2 s with
    | none => (h2, none)
    | some hs => iterStore d n hs.1 hs.2

/-- Store-level `iterate_selection`: runs the loop `n_points` times and reads
the result frame (`reset_index(drop=True)` returns a fresh equal frame). -/
def iterateSelectionStore (d : DistFn) (h : PdHeap) (s : ROStore) :
    PdHeap × Option (List RRow) :=
  let r := iterStore d s.n_points h s
  match r.2 with
  | none => (r.1, none)
  | some s2 => (r.1, some (heapRead r.1 s2.resRef))

/-! ## Helper lemmas: the grid sweep loop -/

/-- Closed form of the sweep loop body: starting at `pos` with
`floor((maxv - pos)/step) = n`, the loop visits exactly the positions
`pos + i * step` for `0 <= i <= n`. -/
theorem sweepPos_eq_aux (maxv step : ℚ) (hs : 0 < step) :
    ∀ (n : ℕ) (pos : ℚ), pos ≤ maxv → Nat.floor ((maxv - pos) / step) = n →
      sweepPos maxv step hs pos =
        (List.range (n + 1)).map (fun i : ℕ => pos + (i : ℚ) * step) := by
  intro n
  induction n with
  | zero =>
    intro pos hp hn
    have hq1 : (maxv - pos) / step < 1 := by
      have h2 := Nat.lt_floor_add_one ((maxv - pos) / step)
      rw [hn] at h2
      simpa using h2
    have hnext : ¬ (pos + step ≤ maxv) := by
      intro hc
      have : (1:ℚ) ≤ (maxv - pos) / step := (one_le_div hs).mpr (by linarith)
      linarith
    rw [sweepPos, if_pos hp, sweepPos, if_neg hnext]
    simp [List.range_succ]
  | succ k ih =>
    intro pos hp hn
    have hq0 : (0:ℚ) ≤ (maxv - pos) / step := div_nonneg (by linarith) hs.le
    have hq1 : (1:ℚ) ≤ (maxv - pos) / step := by
      have h2 := Nat.floor_le hq0
      rw [hn] at h2
      push_cast at h2
      linarith
    have hnext : pos + step ≤ maxv := by
      have h3 : step ≤ maxv - pos := by
        have := (one_le_div hs).mp hq1
        linarith
      linarith
    have hfl : Nat.floor ((maxv - (pos + step)) / step) = k := by
      have hshift : (maxv - (pos + step)) / step = (maxv - pos) / step - ((1:ℕ) : ℚ) := by
        push_cast
        field_simp
        ring
      rw [hshift, Nat.floor_sub_nat, hn]
      omega
    rw [sweepPos, if_pos hp, ih (pos + step) hnext hfl]
    conv_rhs => rw [List.range_succ_eq_map, List.map_cons, List.map_map]
    rw [List.cons_eq_cons]
    constructor
    · norm_num
    · apply List.map_congr_left
      intro i _
      simp only [Function.comp]
      push_cast
      ring

/-- Closed form of `sweep`: for a positive step the while loop terminates and
visits exactly the positions `minv + i * step` for
`0 <= i <= floor((maxv - minv)/step)` (empty when `minv > maxv`). -/
theorem sweep_eq (minv maxv step : ℚ) (hs : 0 < step) :
    sweep minv maxv step =
      if minv ≤ maxv
      then (List.range (Nat.floor ((maxv - minv) / step) + 1)).map
        (fun i : ℕ => minv + (i : ℚ) * step)
      else [] := by
  unfold sweep
  rw [dif_pos hs]
  by_cases h : minv ≤ maxv
  · rw [if_pos h]
    exact sweepPos_eq_aux maxv step hs _ minv h rfl
  · rw [if_neg h, sweepPos, if_neg h]

/-! ## Helper lemmas: concrete evaluations

`Rat` arithmetic is `@[irreducible]`, so concrete runs of the embedded code
are evaluated by `simp`/`norm_num` through the equations above rather than by
kernel reduction. -/

theorem sweep_eval_0_2_1 : sweep 0 2 1 = [0, 1, 2] := by
  rw [sweep_eq 0 2 1 (by norm_num), if_pos (by norm_num)]
  have h : Nat.floor (((2:ℚ) - 0) / 1) = 2 := by
    rw [Nat.floor_eq_iff] <;> norm_num
  rw [h]
  simp [List.range_succ]

/-- The emission pass on the 2-degree square with the unit grid: of the nine
grid points only `(1,1)` lies in the interior, attributed to polygon 1. -/
theorem emit_eval_square :
    emitRows [[((0:ℚ),(0:ℚ)),(0,2),(2,2),(2,0)]] 5 [0,1,2] [0,1,2]
      = [{ lat := 1, lon := 1, radius := 5, area_id := 1 }] := by
  unfold emitRows
  norm_num [List.filterMap_cons, List.flatMap_cons, area_found, findAreaAux,
    Shapely.contains, Shapely.onBoundary, Shapely.onSegment, Shapely.polygonEdges,
    Shapely.crossCount, Shapely.crossesRay, List.rotate]

/-- Running the generator body on the 2-degree square with unit base steps
and spacing 0 emits exactly the one interior grid point `(1,1)`, attributed
to polygon 1. -/
theorem generate_eval_square :
    ((GMapsOptimizer.init [[((0:ℚ),(0:ℚ)),(0,2),(2,2),(2,0)]] 5 0).generate_body 1 1).boundary_dataframe
      = [{ lat := 1, lon := 1, radius := 5, area_id := 1 }] := by
  simp only [GMapsOptimizer.generate_body, GMapsOptimizer.init]
  rw [if_neg (by decide)]
  norm_num [all_lats, all_lons, listMin, listMax, scaled_step, sweep_eval_0_2_1]
  simpa using emit_eval_square

/-! ## C2: boundary behavior of the point-in-polygon test -/

/-- C2, amended: the containment test used to decide whether a grid point is
emitted (shapely `Polygon.contains`) is boundary-EXCLUSIVE: for every polygon
and every point on the polygon's boundary, the test returns false, so grid
points lying exactly on an edge are not counted. -/
theorem C2_boundary_exclusive (vs : List GeoPt) (p : GeoPt)
    (h : Shapely.onBoundary vs p = true) : Shapely.contains vs p = false := by
  simp [Shapely.contains, h]

theorem C2_boundary_exclusive_witness :
    Shapely.onBoundary [((0:ℚ),(0:ℚ)),(0,2),(2,2),(2,0)] (0, 1) = true ∧
    Shapely.contains [((0:ℚ),(0:ℚ)),(0,2),(2,2),(2,0)] (0, 1) = false := by
  have h : Shapely.onBoundary [((0:ℚ),(0:ℚ)),(0,2),(2,2),(2,0)] (0, 1) = true := by
    norm_num [Shapely.onBoundary, Shapely.onSegment, Shapely.polygonEdges, List.rotate]
  exact ⟨h, C2_boundary_exclusive _ _ h⟩

/-- C2, counterexample: the point `(2,1)` lies exactly on the boundary (the
east edge) of the square `(0,0),(0,2),(2,2),(2,0)` but the containment test
returns false, while the interior point `(1,1)` returns true — so the test
is not boundary-inclusive as claimed. -/
theorem C2_boundary_counterexample :
    Shapely.onBoundary [((0:ℚ),(0:ℚ)),(0,2),(2,2),(2,0)] (2, 1) = true ∧
    Shapely.contains [((0:ℚ),(0:ℚ)),(0,2),(2,2),(2,0)] (2, 1) = false ∧
    Shapely.contains [((0:ℚ),(0:ℚ)),(0,2),(2,2),(2,0)] (1, 1) = true := by
  refine ⟨?_, ?_, ?_⟩ <;>
    norm_num [Shapely.contains, Shapely.onBoundary, Shapely.onSegment,
      Shapely.polygonEdges, Shapely.crossCount, Shapely.crossesRay, List.rotate]

/-! ## C3: the grid traversal -/

/-- C3, amended: the traversal is NOT index-driven — it repeatedly adds the
step in a `while` loop — but under the embedding's exact arithmetic the loop
terminates for every positive step and visits exactly the positions
`min + i*step` for `0 <= i <= floor((max-min)/step)` (the claim's
`ceil((max-min)/step)` bound overshoots whenever the step does not divide the
range exactly). -/
theorem C3_sweep_closed_form (minv maxv step : ℚ) (hs : 0 < step)
    (hm : minv ≤ maxv) :
    sweep minv maxv step =
      (List.range (Nat.floor ((maxv - minv) / step) + 1)).map
        (fun i : ℕ => minv + (i : ℚ) * step) := by
  rw [sweep_eq minv maxv step hs, if_pos hm]

theorem C3_sweep_closed_form_witness :
    (0:ℚ) < 1 ∧ (0:ℚ) ≤ 2 ∧
    sweep 0 2 1 =
      (List.range (Nat.floor (((2:ℚ) - 0) / 1) + 1)).map
        (fun i : ℕ => (0:ℚ) + (i : ℚ) * 1) :=
  ⟨by norm_num, by norm_num,
    C3_sweep_closed_form 0 2 1 (by norm_num) (by norm_num)⟩

/-- C3, counterexample: with `min = 0`, `max = 1`, `step = 2/3` the loop
emits `[0, 2/3]`, not the positions `min + i*step` for `i` up to
`ceil((max-min)/step) = 2` (which would be `[0, 2/3, 4/3]`): the while loop
stops at `floor`, not `ceil`, so the claimed index-driven characterization
does not match the code. -/
theorem C3_sweep_counterexample :
    sweep 0 1 (2/3) = [0, 2/3] ∧
    specIndexSweep 0 1 (2/3) = [0, 2/3, 4/3] ∧
    sweep 0 1 (2/3) ≠ specIndexSweep 0 1 (2/3) := by
  have h1 : sweep 0 1 (2/3) = [0, 2/3] := by
    rw [sweep_eq 0 1 (2/3) (by norm_num), if_pos (by norm_num)]
    have h : Nat.floor (((1:ℚ) - 0) / (2/3)) = 1 := by
      rw [Nat.floor_eq_iff] <;> norm_num
    rw [h]
    simp [List.range_succ]
  have h2 : specIndexSweep 0 1 (2/3) = [0, 2/3, 4/3] := by
    unfold specIndexSweep
    have h : Nat.ceil (((1:ℚ) - 0) / (2/3)) = 2 := by
      rw [Nat.ceil_eq_iff] <;> norm_num
    rw [h]
    simp [List.range_succ]
    norm_num
  refine ⟨h1, h2, ?_⟩
  rw [h1, h2]
  intro hcontra
  have := congrArg List.length hcontra
  simp at this

/-! ## C4: absence of constructor validation -/

/-- C4, amended: `GMapsOptimizer.__init__` performs NO validation — for every
radius and spacing factor (valid or not) construction succeeds and stores the
parameters verbatim; no `InvalidParameter` failure exists and computation is
not prevented from running on invalid input. -/
theorem C4_init_no_validation (corner_sets : List (List GeoPt)) (radius spacing_factor : ℚ) :
    GMapsOptimizer.init corner_sets radius spacing_factor =
      { corner_sets := corner_sets, radius := radius, spacing_factor := spacing_factor,
        earth_radius := 6371000, circle_centers := [], boundary_dataframe := [],
        polygons := corner_sets } := rfl

/-- C4, counterexample: with `radius = -1 <= 0` and `spacing_factor = 5`
outside `[0,1]`, the spec-modelled validating constructor rejects with
`InvalidParameter`, but the source constructor succeeds and stores the
invalid parameters. -/
theorem C4_init_counterexample :
    specValidatingInit [[((0:ℚ),(0:ℚ)),(0,1),(1,1),(1,0)]] (-1) 5 =
      Except.error "InvalidParameter" ∧
    GMapsOptimizer.init [[((0:ℚ),(0:ℚ)),(0,1),(1,1),(1,0)]] (-1) 5 =
      { corner_sets := [[((0:ℚ),(0:ℚ)),(0,1),(1,1),(1,0)]], radius := -1,
        spacing_factor := 5, earth_radius := 6371000, circle_centers := [],
        boundary_dataframe := [],
        polygons := [[((0:ℚ),(0:ℚ)),(0,1),(1,1),(1,0)]] } := by
  constructor
  · unfold specValidatingInit
    rw [if_pos (by norm_num)]
  · rfl

/-! ## C8: the longitude step and the reference latitude -/

/-- Monotonicity of the longitude step in the absolute reference latitude:
dividing by the cosine of a more poleward latitude (smaller cosine) gives a
LARGER degree step. -/
theorem lon_step_base_mono (radius x y : ℝ) (hr : 0 ≤ radius)
    (hxy : |x| ≤ |y|) (hy : |y| < 90) :
    lon_step_base radius x ≤ lon_step_base radius y := by
  have hpi := Real.pi_pos
  have habs : ∀ z : ℝ, |z * Real.pi / 180| = |z| * Real.pi / 180 := by
    intro z
    rw [abs_div, abs_mul, abs_of_pos hpi]
    norm_num
  have hcx : Real.cos (x * Real.pi / 180) = Real.cos (|x| * Real.pi / 180) := by
    rw [← habs x, Real.cos_abs]
  have hcy : Real.cos (y * Real.pi / 180) = Real.cos (|y| * Real.pi / 180) := by
    rw [← habs y, Real.cos_abs]
  have h1 : 0 ≤ |x| * Real.pi / 180 := by positivity
  have hy2 : |y| * Real.pi / 180 < Real.pi / 2 := by
    have h4 : |y| * Real.pi < 90 * Real.pi := mul_lt_mul_of_pos_right hy hpi
    linarith
  have h2 : |y| * Real.pi / 180 ≤ Real.pi := by linarith
  have h3 : |x| * Real.pi / 180 ≤ |y| * Real.pi / 180 := by
    have := mul_le_mul_of_nonneg_right hxy hpi.le
    linarith
  have hcosle : Real.cos (|y| * Real.pi / 180) ≤ Real.cos (|x| * Real.pi / 180) :=
    Real.cos_le_cos_of_nonneg_of_le_pi h1 h2 h3
  have hcypos : 0 < Real.cos (|y| * Real.pi / 180) := by
    apply Real.cos_pos_of_mem_Ioo
    constructor
    · have : 0 < Real.pi / 2 := by positivity
      calc -(Real.pi / 2) < 0 := by linarith
        _ ≤ |y| * Real.pi / 180 := by positivity
    · exact hy2
  unfold lon_step_base
  rw [hcx, hcy]
  have hK : 0 ≤ (180:ℝ) / Real.pi := by positivity
  apply mul_le_mul_of_nonneg_right _ hK
  apply div_le_div_of_nonneg_left hr
  · positivity
  · have := mul_le_mul_of_nonneg_left hcosle (by norm_num : (0:ℝ) ≤ 6371000)
    linarith

/-- C8, amended: the longitude grid step is computed as
`radius / (earthRadius * cos(referenceLat in radians)) * (180/pi)` with
`referenceLat = max(|min_lat|, |max_lat|)` (the more poleward bound), and the
resulting step is never SMALLER than the step either bounding latitude alone
would give (the claim's direction is reversed: the poleward cosine is
smaller, so dividing by it makes the step larger, not smaller). -/
theorem C8_lon_step_poleward_max (radius min_lat max_lat : ℝ) (hr : 0 ≤ radius)
    (hmin : |min_lat| < 90) (hmax : |max_lat| < 90) :
    lon_step_base radius min_lat ≤ lon_step_base radius (ref_lat min_lat max_lat) ∧
    lon_step_base radius max_lat ≤ lon_step_base radius (ref_lat min_lat max_lat) := by
  have href : |ref_lat min_lat max_lat| = max |min_lat| |max_lat| := by
    unfold ref_lat
    exact abs_of_nonneg (le_max_of_le_left (abs_nonneg _))
  have h90 : |ref_lat min_lat max_lat| < 90 := by
    rw [href]
    exact max_lt hmin hmax
  constructor
  · exact lon_step_base_mono radius min_lat _ hr
      (by rw [href]; exact le_max_left _ _) h90
  · exact lon_step_base_mono radius max_lat _ hr
      (by rw [href]; exact le_max_right _ _) h90

theorem C8_lon_step_poleward_max_witness :
    (0:ℝ) ≤ 500 ∧ |(0:ℝ)| < 90 ∧ |(60:ℝ)| < 90 ∧
    (lon_step_base 500 0 ≤ lon_step_base 500 (ref_lat 0 60) ∧
     lon_step_base 500 60 ≤ lon_step_base 500 (ref_lat 0 60)) :=
  ⟨by norm_num, by norm_num, by rw [abs_of_nonneg] <;> norm_num,
    C8_lon_step_poleward_max 500 0 60 (by norm_num) (by norm_num)
      (by rw [abs_of_nonneg] <;> norm_num)⟩

/-- C8, counterexample: with bounding latitudes 0 and 60 degrees and radius
500 m, the longitude step at the poleward reference latitude (60, where
cos = 1/2) is STRICTLY LARGER than the step latitude 0 alone would give —
refuting the claim that the reference-latitude step is never larger than the
step of either bounding latitude. -/
theorem C8_lon_step_counterexample :
    lon_step_base 500 0 < lon_step_base 500 (ref_lat 0 60) := by
  have hpi := Real.pi_pos
  have h60 : ref_lat (0:ℝ) 60 = 60 := by
    unfold ref_lat
    rw [abs_zero, abs_of_nonneg (by norm_num : (0:ℝ) ≤ 60)]
    exact max_eq_right (by norm_num)
  rw [h60]
  unfold lon_step_base
  have hc0 : Real.cos ((0:ℝ) * Real.pi / 180) = 1 := by
    norm_num [Real.cos_zero]
  have hc60 : Real.cos ((60:ℝ) * Real.pi / 180) = 1/2 := by
    rw [show (60:ℝ) * Real.pi / 180 = Real.pi / 3 by ring]
    exact Real.cos_pi_div_three
  rw [hc0, hc60]
  have h1 : (500:ℝ) / (6371000 * 1) < 500 / (6371000 * (1/2)) := by norm_num
  have h2 : 0 < (180:ℝ) / Real.pi := by positivity
  exact mul_lt_mul_of_pos_right h1 h2

/-! ## Helper lemmas: the selection step of the route sequencer -/

theorem idxmin_nil : idxmin [] = none := rfl

theorem idxmin_isSome (r : RRow) (rs : List RRow) :
    ∃ m, idxmin (r :: rs) = some m := by
  rcases h : idxmin rs with _ | m
  · exact ⟨r, by rw [idxmin, h]⟩
  · by_cases hd : r.adjusted_distance ≤ m.adjusted_distance
    · exact ⟨r, by rw [idxmin, h]; dsimp only; rw [if_pos hd]⟩
    · exact ⟨m, by rw [idxmin, h]; dsimp only; rw [if_neg hd]⟩

/-- `idxmin` returns the first row attaining the minimum `adjusted_distance`:
every row strictly before it is strictly larger, every row after it is at
least as large. -/
theorem idxmin_first :
    ∀ {l : List RRow} {r : RRow}, idxmin l = some r →
      ∃ l1 l2, l = l1 ++ r :: l2 ∧
        (∀ x ∈ l1, r.adjusted_distance < x.adjusted_distance) ∧
        (∀ x ∈ l2, r.adjusted_distance ≤ x.adjusted_distance) := by
  intro l
  induction l with
  | nil => intro r h; simp [idxmin] at h
  | cons a as ih =>
    intro r h
    rcases hh : idxmin as with _ | m
    · rw [idxmin, hh] at h
      dsimp only at h
      have has : as = [] := by
        cases as with
        | nil => rfl
        | cons b bs =>
          obtain ⟨m2, hm2⟩ := idxmin_isSome b bs
          rw [hm2] at hh
          exact absurd hh (by simp)
      simp only [Option.some.injEq] at h
      subst h
      exact ⟨[], [], by simp [has], by simp, by simp [has]⟩
    · rw [idxmin, hh] at h
      dsimp only at h
      obtain ⟨l1, l2, hsplit, hbefore, hafter⟩ := ih hh
      by_cases hd : a.adjusted_distance ≤ m.adjusted_distance
      · rw [if_pos hd] at h
        simp only [Option.some.injEq] at h
        subst h
        refine ⟨[], as, rfl, by simp, ?_⟩
        intro x hx
        rw [hsplit] at hx
        rcases List.mem_append.mp hx with h1 | h2
        · exact le_of_lt (lt_of_le_of_lt hd (hbefore x h1))
        · rcases List.mem_cons.mp h2 with h3 | h4
          · rw [h3]; exact hd
          · exact le_trans hd (hafter x h4)
      · rw [if_neg hd] at h
        simp only [Option.some.injEq] at h
        subst h
        exact ⟨a :: l1, l2, by rw [hsplit]; rfl,
          by
            intro x hx
            rcases List.mem_cons.mp hx with h1 | h2
            · rw [h1]; exact lt_of_not_le hd
            · exact hbefore x h2,
          hafter⟩

theorem idxmin_mem {l : List RRow} {r : RRow} (h : idxmin l = some r) : r ∈ l := by
  obtain ⟨l1, l2, hsplit, -, -⟩ := idxmin_first h
  rw [hsplit]
  exact List.mem_append.mpr (Or.inr (List.mem_cons_self _ _))

/-- Removing all rows sharing the id of a member of a nodup-id pool removes
exactly one row. -/
theorem filter_ne_id_length :
    ∀ (l : List RRow), (l.map RRow.location_id).Nodup → ∀ r ∈ l,
      (l.filter (fun x => x.location_id ≠ r.location_id)).length + 1 = l.length := by
  intro l
  induction l with
  | nil => intro _ r hr; simp at hr
  | cons a as ih =>
    intro hnd r hr
    rw [List.map_cons, List.nodup_cons] at hnd
    obtain ⟨hnotin, hnd2⟩ := hnd
    rcases List.mem_cons.mp hr with h1 | h2
    · rw [List.filter_cons, if_neg (by simp [h1])]
      have hkeep : as.filter (fun x => x.location_id ≠ r.location_id) = as := by
        rw [List.filter_eq_self]
        intro x hx
        simp only [ne_eq, decide_eq_true_eq]
        intro hxr
        exact hnotin (by rw [← h1]; exact hxr ▸ List.mem_map_of_mem RRow.location_id hx)
      rw [hkeep]
      simp
    · rw [List.filter_cons, if_pos (by
        simp only [ne_eq, decide_eq_true_eq]
        intro hid
        exact hnotin (hid ▸ List.mem_map_of_mem RRow.location_id h2))]
      have hih := ih hnd2 r h2
      simp only [List.length_cons]
      omega

theorem filter_ne_id_nodup (l : List RRow) (hnd : (l.map RRow.location_id).Nodup)
    (i : ℤ) :
    ((l.filter (fun x => x.location_id ≠ i)).map RRow.location_id).Nodup :=
  hnd.sublist (List.Sublist.map RRow.location_id (List.filter_sublist l))

theorem calc_div_fields (d : DistFn) (s : RouteOrderOptimizer) :
    ((s.calculate_distances d).divide_by_indicator).df.map RRow.location_id
        = s.df.map RRow.location_id ∧
    ((s.calculate_distances d).divide_by_indicator).df.length = s.df.length ∧
    ((s.calculate_distances d).divide_by_indicator).result_df = s.result_df := by
  unfold RouteOrderOptimizer.calculate_distances RouteOrderOptimizer.divide_by_indicator
  refine ⟨?_, by simp, rfl⟩
  simp only [List.map_map]
  rfl

/-- The selection loop: with pairwise-distinct candidate ids, running `n`
iterations succeeds and adds exactly `n` rows to the result when the pool has
at least `n` rows, and raises (returns `none`) when the pool is smaller. -/
theorem iterate_aux_spec (d : DistFn) :
    ∀ (n : ℕ) (s : RouteOrderOptimizer),
      (s.df.map RRow.location_id).Nodup →
      (n ≤ s.df.length →
        ∃ s2, RouteOrderOptimizer.iterate_aux d n s = some s2 ∧
          s2.result_df.length = s.result_df.length + n) ∧
      (s.df.length < n → RouteOrderOptimizer.iterate_aux d n s = none) := by
  intro n
  induction n with
  | zero =>
    intro s _
    exact ⟨fun _ => ⟨s, rfl, by simp⟩, fun h => absurd h (by omega)⟩
  | succ k ih =>
    intro s hnd
    obtain ⟨hids, hlen, hres⟩ := calc_div_fields d s
    cases hdf : ((s.calculate_distances d).divide_by_indicator).df with
    | nil =>
      have hsel : ((s.calculate_distances d).divide_by_indicator).select_nearest = none := by
        unfold RouteOrderOptimizer.select_nearest
        rw [hdf, idxmin_nil]
      have hit : RouteOrderOptimizer.iterate_aux d (k+1) s = none := by
        rw [RouteOrderOptimizer.iterate_aux, hsel]
      have hlen0 : s.df.length = 0 := by
        rw [← hlen, hdf]
        rfl
      exact ⟨fun hle => absurd hle (by omega), fun _ => hit⟩
    | cons b bs =>
      obtain ⟨nr, hnr⟩ := idxmin_isSome b bs
      have hidx : idxmin ((s.calculate_distances d).divide_by_indicator).df = some nr := by
        rw [hdf]
        exact hnr
      have hmem : nr ∈ ((s.calculate_distances d).divide_by_indicator).df := idxmin_mem hidx
      have hndt : (((s.calculate_distances d).divide_by_indicator).df.map RRow.location_id).Nodup := by
        rw [hids]
        exact hnd
      have hsel : ((s.calculate_distances d).divide_by_indicator).select_nearest = some
          { ((s.calculate_distances d).divide_by_indicator) with
            result_df := ((s.calculate_distances d).divide_by_indicator).result_df ++ [nr]
            reference_point := (nr.lat, nr.long)
            df := ((s.calculate_distances d).divide_by_indicator).df.filter
              (fun r => r.location_id ≠ nr.location_id) } := by
        unfold RouteOrderOptimizer.select_nearest
        rw [hidx]
      have hlen2 : (((s.calculate_distances d).divide_by_indicator).df.filter
          (fun r => r.location_id ≠ nr.location_id)).length + 1 = s.df.length := by
        rw [← hlen]
        exact filter_ne_id_length _ hndt nr hmem
      have hnd2 : ((((s.calculate_distances d).divide_by_indicator).df.filter
          (fun r => r.location_id ≠ nr.location_id)).map RRow.location_id).Nodup :=
        filter_ne_id_nodup _ hndt _
      have hiter : RouteOrderOptimizer.iterate_aux d (k+1) s =
          RouteOrderOptimizer.iterate_aux d k
            { ((s.calculate_distances d).divide_by_indicator) with
              result_df := ((s.calculate_distances d).divide_by_indicator).result_df ++ [nr]
              reference_point := (nr.lat, nr.long)
              df := ((s.calculate_distances d).divide_by_indicator).df.filter
                (fun r => r.location_id ≠ nr.location_id) } := by
        rw [RouteOrderOptimizer.iterate_aux, hsel]
      obtain ⟨ih1, ih2⟩ := ih
        { ((s.calculate_distances d).divide_by_indicator) with
          result_df := ((s.calculate_distances d).divide_by_indicator).result_df ++ [nr]
          reference_point := (nr.lat, nr.long)
          df := ((s.calculate_distances d).divide_by_indicator).df.filter
            (fun r => r.location_id ≠ nr.location_id) } hnd2
      constructor
      · intro hle
        obtain ⟨s3, h3, hlen3⟩ := ih1 (by dsimp only; omega)
        refine ⟨s3, by rw [hiter]; exact h3, ?_⟩
        dsimp only at hlen3
        rw [hlen3]
        simp only [List.length_append, List.length_cons, List.length_nil, hres]
        omega
      · intro hlt
        rw [hiter]
        exact ih2 (by dsimp only; omega)

/-! ## C1: itinerary length and the empty pool -/

/-- C1, amended: for pairwise-distinct candidate ids, `iterate_selection`
returns an itinerary of length exactly `n_points` when `n_points` does not
exceed the candidate count; but when `n_points` exceeds the candidate count —
in particular for a nonempty request on an empty pool — the run RAISES
(pandas `idxmin` on an empty series), modelled by `none`, instead of
returning the shorter itinerary `min(n_points, candidate count)` that the
claim states. -/
theorem C1_itinerary_length (d : DistFn) (df : List RRow) (rp : GeoPt) (n : ℕ)
    (hids : (df.map RRow.location_id).Nodup) :
    (n ≤ df.length →
      ∃ out, (RouteOrderOptimizer.init df rp n).iterate_selection d = some out ∧
        out.length = n) ∧
    (df.length < n → (RouteOrderOptimizer.init df rp n).iterate_selection d = none) := by
  obtain ⟨h1, h2⟩ := iterate_aux_spec d n (RouteOrderOptimizer.init df rp n) hids
  constructor
  · intro hle
    obtain ⟨s2, hs2, hlen⟩ := h1 hle
    refine ⟨s2.result_df, ?_, ?_⟩
    · unfold RouteOrderOptimizer.iterate_selection
      rw [show (RouteOrderOptimizer.init df rp n).n_points = n from rfl, hs2]
      rfl
    · rw [hlen]
      simp [RouteOrderOptimizer.init]
  · intro hlt
    unfold RouteOrderOptimizer.iterate_selection
    rw [show (RouteOrderOptimizer.init df rp n).n_points = n from rfl, h2 hlt]
    rfl

theorem C1_itinerary_length_witness :
    ((([⟨1, 0, 0, 1, 0, 0⟩, ⟨2, 0, 1, 1, 0, 0⟩] : List RRow).map RRow.location_id).Nodup) ∧
    (∃ out, (RouteOrderOptimizer.init [⟨1, 0, 0, 1, 0, 0⟩, ⟨2, 0, 1, 1, 0, 0⟩]
        (0, 0) 1).iterate_selection (fun _ _ => 0) = some out ∧ out.length = 1) :=
  ⟨by decide,
    (C1_itinerary_length (fun _ _ => 0) [⟨1, 0, 0, 1, 0, 0⟩, ⟨2, 0, 1, 1, 0, 0⟩]
      (0, 0) 1 (by decide)).1 (by decide)⟩

/-- C1, counterexample: an empty candidate pool with `n_points = 1` raises
(returns `none`, the embedded pandas `ValueError`) instead of yielding the
empty itinerary `some []` that the claim requires. -/
theorem C1_empty_pool_counterexample :
    (RouteOrderOptimizer.init [] (0, 0) 1).iterate_selection (fun _ _ => 0) = none ∧
    (RouteOrderOptimizer.init [] (0, 0) 1).iterate_selection (fun _ _ => 0) ≠ some [] := by
  refine ⟨rfl, ?_⟩
  intro h
  rw [show (RouteOrderOptimizer.init [] (0, 0) 1).iterate_selection (fun _ _ => 0) = none
    from rfl] at h
  exact Option.noConfusion h

/-! ## C5: the tie-break of the selection step -/

/-- C5, amended: `select_nearest` picks the candidate at the EARLIEST
POSITION in the remaining pool among those attaining the minimum
`adjusted_distance` (pandas `idxmin` returns the first index of the minimum)
— not the candidate with the smallest id.  The output is deterministic for
identical inputs in identical order, but reordering tied candidates changes
the output. -/
theorem C5_select_first_position (s s2 : RouteOrderOptimizer)
    (h : s.select_nearest = some s2) :
    ∃ nr l1 l2, s.df = l1 ++ nr :: l2 ∧
      s2.result_df = s.result_df ++ [nr] ∧
      s2.reference_point = (nr.lat, nr.long) ∧
      s2.df = s.df.filter (fun r => r.location_id ≠ nr.location_id) ∧
      (∀ x ∈ l1, nr.adjusted_distance < x.adjusted_distance) ∧
      (∀ x ∈ l2, nr.adjusted_distance ≤ x.adjusted_distance) := by
  unfold RouteOrderOptimizer.select_nearest at h
  rcases hidx : idxmin s.df with _ | nr
  · rw [hidx] at h
    exact absurd h (by simp)
  · rw [hidx] at h
    dsimp only at h
    simp only [Option.some.injEq] at h
    obtain ⟨l1, l2, hsplit, hb, ha⟩ := idxmin_first hidx
    subst h
    exact ⟨nr, l1, l2, hsplit, rfl, rfl, rfl, hb, ha⟩

theorem C5_select_first_position_witness :
    ((⟨[⟨1, 0, 0, 1, 0, 5⟩, ⟨2, 0, 0, 1, 0, 3⟩], (0, 0), [], 3⟩ :
        RouteOrderOptimizer).select_nearest =
      some ⟨[⟨1, 0, 0, 1, 0, 5⟩], (0, 0), [⟨2, 0, 0, 1, 0, 3⟩], 3⟩) ∧
    (∃ nr l1 l2,
      ([⟨1, 0, 0, 1, 0, 5⟩, ⟨2, 0, 0, 1, 0, 3⟩] : List RRow) = l1 ++ nr :: l2 ∧
      ([⟨2, 0, 0, 1, 0, 3⟩] : List RRow) = [] ++ [nr] ∧
      ((0 : ℚ), (0 : ℚ)) = (nr.lat, nr.long) ∧
      ([⟨1, 0, 0, 1, 0, 5⟩] : List RRow) =
        ([⟨1, 0, 0, 1, 0, 5⟩, ⟨2, 0, 0, 1, 0, 3⟩] : List RRow).filter
          (fun r => r.location_id ≠ nr.location_id) ∧
      (∀ x ∈ l1, nr.adjusted_distance < x.adjusted_distance) ∧
      (∀ x ∈ l2, nr.adjusted_distance ≤ x.adjusted_distance)) :=
  ⟨by decide,
    C5_select_first_position
      ⟨[⟨1, 0, 0, 1, 0, 5⟩, ⟨2, 0, 0, 1, 0, 3⟩], (0, 0), [], 3⟩
      ⟨[⟨1, 0, 0, 1, 0, 5⟩], (0, 0), [⟨2, 0, 0, 1, 0, 3⟩], 3⟩ (by decide)⟩

/-- C5, counterexample: two candidates at the SAME coordinates with the same
indicator (so their adjusted distances tie under every distance function),
listed with id 2 before id 1.  The code selects id 2 first (first position),
not the smallest id 1 that the claim requires, and the output order depends
on the candidates' positional order in the input list. -/
theorem C5_tiebreak_counterexample :
    RouteOrderOptimizer.iterate_selection (fun _ _ => (1:ℚ))
      (RouteOrderOptimizer.init [⟨2, 0, 1, 1, 0, 0⟩, ⟨1, 0, 1, 1, 0, 0⟩] (0, 0) 2) =
      some [⟨2, 0, 1, 1, 1, 1⟩, ⟨1, 0, 1, 1, 1, 1⟩] ∧
    ([⟨2, 0, 1, 1, 1, 1⟩, ⟨1, 0, 1, 1, 1, 1⟩] : List RRow).map RRow.location_id = [2, 1] ∧
    ([2, 1] : List ℤ) ≠ [1, 2] := by
  refine ⟨?_, by decide, by decide⟩
  norm_num [RouteOrderOptimizer.iterate_selection, RouteOrderOptimizer.iterate_aux,
    RouteOrderOptimizer.calculate_distances, RouteOrderOptimizer.divide_by_indicator,
    RouteOrderOptimizer.select_nearest, idxmin, RouteOrderOptimizer.init,
    List.filter_cons]

/-! ## Helper lemmas: area attribution in the coverage generator -/

/-- The attribution loop: when some polygon contains the point, `findAreaAux`
starting at accumulator `i` returns `i + k` for the first containing 0-based
index `k`; all earlier polygons reject the point. -/
theorem findAreaAux_spec (p : GeoPt) :
    ∀ (polys : List (List GeoPt)) (i : ℤ),
      (polys.any (fun poly => Shapely.contains poly p)) = true →
      ∃ k : ℕ, k < polys.length ∧
        findAreaAux i polys p = i + (k : ℤ) ∧
        Shapely.contains (polys.getD k []) p = true ∧
        ∀ j : ℕ, j < k → Shapely.contains (polys.getD j []) p = false := by
  intro polys
  induction polys with
  | nil =>
    intro i h
    simp at h
  | cons q qs ih =>
    intro i h
    cases hq : Shapely.contains q p with
    | true =>
      refine ⟨0, by simp, ?_, by simpa using hq, fun j hj => absurd hj (Nat.not_lt_zero j)⟩
      rw [findAreaAux, if_pos hq]
      simp
    | false =>
      have h2 : (qs.any (fun poly => Shapely.contains poly p)) = true := by
        rcases List.any_eq_true.mp h with ⟨x, hx, hcx⟩
        rcases List.mem_cons.mp hx with h3 | h4
        · rw [h3] at hcx
          rw [hcx] at hq
          exact absurd hq (by simp)
        · exact List.any_eq_true.mpr ⟨x, h4, hcx⟩
      obtain ⟨k, hk, heq, hc, hprev⟩ := ih (i + 1) h2
      refine ⟨k + 1, by simpa using Nat.succ_lt_succ hk, ?_, by simpa using hc, ?_⟩
      · rw [findAreaAux, if_neg (by simp [hq]), heq]
        push_cast
        ring
      · intro j hj
        cases j with
        | zero => simpa using hq
        | succ j2 => simpa using hprev j2 (Nat.lt_of_succ_lt_succ hj)

/-- Every row emitted by the sweep passed the any-polygon guard, and its
`area_id` is exactly the attribution loop's output for its own point. -/
theorem emitRows_mem {polys : List (List GeoPt)} {radius : ℚ}
    {lats lons : List ℚ} {row : CRow}
    (h : row ∈ emitRows polys radius lats lons) :
    (polys.any (fun poly => Shapely.contains poly (row.lat, row.lon))) = true ∧
    row.area_id = area_found polys (row.lat, row.lon) ∧
    row.radius = radius := by
  unfold emitRows at h
  rw [List.mem_flatMap] at h
  obtain ⟨lat, _, h2⟩ := h
  rw [List.mem_filterMap] at h2
  obtain ⟨lon, _, h3⟩ := h2
  rcases hg : (polys.any (fun poly => Shapely.contains poly (lat, lon))) with _ | _
  · rw [if_neg (by simp [hg])] at h3
    exact absurd h3 (by simp)
  · rw [if_pos (by simp [hg])] at h3
    simp only [Option.some.injEq] at h3
    subst h3
    exact ⟨hg, rfl, rfl⟩

/-- Bridge from membership in the generated DataFrame to the first-match
attribution facts. -/
theorem generate_body_mem {cs : List (List GeoPt)} {radius spacing bl bb : ℚ}
    {row : CRow}
    (h : row ∈ ((GMapsOptimizer.init cs radius spacing).generate_body bl bb).boundary_dataframe) :
    ∃ k : ℕ, k < cs.length ∧ row.area_id = 1 + (k : ℤ) ∧
      Shapely.contains (cs.getD k []) (row.lat, row.lon) = true ∧
      ∀ j : ℕ, j < k → Shapely.contains (cs.getD j []) (row.lat, row.lon) = false := by
  unfold GMapsOptimizer.generate_body at h
  by_cases hempty : all_lats (GMapsOptimizer.init cs radius spacing).corner_sets = [] ∨
      all_lons (GMapsOptimizer.init cs radius spacing).corner_sets = []
  · rw [if_pos hempty] at h
    exact absurd h (by simp [GMapsOptimizer.init])
  · rw [if_neg hempty] at h
    simp only [GMapsOptimizer.init, List.nil_append] at h
    obtain ⟨hguard, hid, _⟩ := emitRows_mem h
    obtain ⟨k, hk, heq, hc, hprev⟩ := findAreaAux_spec (row.lat, row.lon) cs 1 hguard
    refine ⟨k, hk, ?_, hc, hprev⟩
    rw [hid]
    exact heq

/-! ## C6: containment soundness of the emitted centers -/

/-- C6 (confirmed): every generated row's `area_id` is at least 1, the
polygon with 1-based index `area_id` contains the row's point under the SAME
shapely containment predicate used by the emission guard, and `area_id` is
the FIRST polygon (in input order) containing the point — every polygon with
a smaller index rejects it. -/
theorem C6_containment_soundness (cs : List (List GeoPt)) (radius spacing bl bb : ℚ)
    (row : CRow)
    (h : row ∈ ((GMapsOptimizer.init cs radius spacing).generate_body bl bb).boundary_dataframe) :
    1 ≤ row.area_id ∧
    Shapely.contains (cs.getD (row.area_id - 1).toNat []) (row.lat, row.lon) = true ∧
    ∀ j : ℕ, (j : ℤ) < row.area_id - 1 →
      Shapely.contains (cs.getD j []) (row.lat, row.lon) = false := by
  obtain ⟨k, hk, heq, hc, hprev⟩ := generate_body_mem h
  refine ⟨by omega, ?_, ?_⟩
  · have htk : (row.area_id - 1).toNat = k := by omega
    rw [htk]
    exact hc
  · intro j hj
    exact hprev j (by omega)

theorem C6_containment_soundness_witness :
    ((⟨1, 1, 5, 1⟩ : CRow) ∈
      ((GMapsOptimizer.init [[((0:ℚ),(0:ℚ)),(0,2),(2,2),(2,0)]] 5 0).generate_body 1 1).boundary_dataframe) ∧
    (1 ≤ (1:ℤ) ∧
     Shapely.contains (([[((0:ℚ),(0:ℚ)),(0,2),(2,2),(2,0)]] : List (List GeoPt)).getD
        ((1 - 1 : ℤ)).toNat []) (1, 1) = true ∧
     ∀ j : ℕ, (j : ℤ) < (1:ℤ) - 1 →
       Shapely.contains (([[((0:ℚ),(0:ℚ)),(0,2),(2,2),(2,0)]] : List (List GeoPt)).getD j [])
         (1, 1) = false) := by
  have hmem : (⟨1, 1, 5, 1⟩ : CRow) ∈
      ((GMapsOptimizer.init [[((0:ℚ),(0:ℚ)),(0,2),(2,2),(2,0)]] 5 0).generate_body 1 1).boundary_dataframe := by
    rw [generate_eval_square]
    simp
  exact ⟨hmem, C6_containment_soundness _ 5 0 1 1 _ hmem⟩

/-! ## C10: range of the emitted area_id -/

/-- C10 (confirmed): every emitted row's `area_id` lies between 1 and the
number of input polygons; the -1 sentinel assigned before the attribution
loop never reaches the output, because the emission guard and the
attribution loop evaluate the same containment predicate at the same
point. -/
theorem C10_area_id_range (cs : List (List GeoPt)) (radius spacing bl bb : ℚ)
    (row : CRow)
    (h : row ∈ ((GMapsOptimizer.init cs radius spacing).generate_body bl bb).boundary_dataframe) :
    1 ≤ row.area_id ∧ row.area_id ≤ (cs.length : ℤ) ∧ row.area_id ≠ -1 := by
  obtain ⟨k, hk, heq, -, -⟩ := generate_body_mem h
  omega

theorem C10_area_id_range_witness :
    ((⟨1, 1, 5, 1⟩ : CRow) ∈
      ((GMapsOptimizer.init [[((0:ℚ),(0:ℚ)),(0,2),(2,2),(2,0)]] 5 0).generate_body 1 1).boundary_dataframe) ∧
    (1 ≤ (1:ℤ) ∧ (1:ℤ) ≤ (([[((0:ℚ),(0:ℚ)),(0,2),(2,2),(2,0)]] : List (List GeoPt)).length : ℤ) ∧
      (1:ℤ) ≠ -1) := by
  have hmem : (⟨1, 1, 5, 1⟩ : CRow) ∈
      ((GMapsOptimizer.init [[((0:ℚ),(0:ℚ)),(0,2),(2,2),(2,0)]] 5 0).generate_body 1 1).boundary_dataframe := by
    rw [generate_eval_square]
    simp
  exact ⟨hmem, C10_area_id_range _ 5 0 1 1 _ hmem⟩


/-! ## C7: spacing factor vs grid step and center count -/

/-- C7, amended: the grid step is monotone in the spacing factor — scaling a
nonnegative base step by `(1 + s)` never decreases when `s` grows (and at
`s = 1` the step is exactly double the `s = 0` step) — but the claimed count
monotonicity FAILS: a larger spacing factor can produce MORE centers (see the
counterexample), because coarser grid points can land inside polygon
interiors that finer ones miss. -/
theorem C7_step_monotone (base s1 s2 : ℚ) (hb : 0 ≤ base) (h12 : s1 ≤ s2) :
    scaled_step base s1 ≤ scaled_step base s2 ∧
    scaled_step base 1 = 2 * scaled_step base 0 := by
  unfold scaled_step
  constructor
  · nlinarith
  · ring

theorem C7_step_monotone_witness :
    (0:ℚ) ≤ 7/10 ∧ (0:ℚ) ≤ 1/2 ∧
    (scaled_step (7/10) 0 ≤ scaled_step (7/10) (1/2) ∧
     scaled_step (7/10) 1 = 2 * scaled_step (7/10) 0) :=
  ⟨by norm_num, by norm_num, C7_step_monotone (7/10) 0 (1/2) (by norm_num) (by norm_num)⟩

theorem sweep_eval_A_lat : sweep 0 3 (7/10) = [0, 7/10, 7/5, 21/10, 14/5] := by
  rw [sweep_eq 0 3 (7/10) (by norm_num), if_pos (by norm_num)]
  have h : Nat.floor (((3:ℚ) - 0) / (7/10)) = 4 := by
    rw [Nat.floor_eq_iff] <;> norm_num
  rw [h]
  simp [List.range_succ]
  norm_num

theorem sweep_eval_A_lon : sweep 0 (51/50) (701/1000) = [0, 701/1000] := by
  rw [sweep_eq 0 (51/50) (701/1000) (by norm_num), if_pos (by norm_num)]
  have h : Nat.floor (((51:ℚ)/50 - 0) / (701/1000)) = 1 := by
    rw [Nat.floor_eq_iff] <;> norm_num
  rw [h]
  simp [List.range_succ]

theorem sweep_eval_B_lat : sweep 0 3 1 = [0, 1, 2, 3] := by
  rw [sweep_eq 0 3 1 (by norm_num), if_pos (by norm_num)]
  have h : Nat.floor (((3:ℚ) - 0) / 1) = 3 := by
    rw [Nat.floor_eq_iff] <;> norm_num
  rw [h]
  simp [List.range_succ]

theorem sweep_eval_B_lon : sweep 0 (51/50) (701/700) = [0, 701/700] := by
  rw [sweep_eq 0 (51/50) (701/700) (by norm_num), if_pos (by norm_num)]
  have h : Nat.floor (((51:ℚ)/50 - 0) / (701/700)) = 1 := by
    rw [Nat.floor_eq_iff] <;> norm_num
  rw [h]
  simp [List.range_succ]

theorem emit_eval_A :
    emitRows [[((0:ℚ),(0:ℚ)),(0,1/10),(3,1/10),(3,0)],
              [((9:ℚ)/10,(69:ℚ)/100),(9/10,51/50),(21/10,51/50),(21/10,69/100)]] 1
      [0, 7/10, 7/5, 21/10, 14/5] [0, 701/1000]
      = [{ lat := 7/5, lon := 701/1000, radius := 1, area_id := 2 }] := by
  unfold emitRows
  norm_num [List.filterMap_cons, List.flatMap_cons, area_found, findAreaAux,
    Shapely.contains, Shapely.onBoundary, Shapely.onSegment, Shapely.polygonEdges,
    Shapely.crossCount, Shapely.crossesRay, List.rotate]

theorem emit_eval_B :
    emitRows [[((0:ℚ),(0:ℚ)),(0,1/10),(3,1/10),(3,0)],
              [((9:ℚ)/10,(69:ℚ)/100),(9/10,51/50),(21/10,51/50),(21/10,69/100)]] 1
      [0, 1, 2, 3] [0, 701/700]
      = [{ lat := 1, lon := 701/700, radius := 1, area_id := 2 },
         { lat := 2, lon := 701/700, radius := 1, area_id := 2 }] := by
  unfold emitRows
  norm_num [List.filterMap_cons, List.flatMap_cons, area_found, findAreaAux,
    Shapely.contains, Shapely.onBoundary, Shapely.onSegment, Shapely.polygonEdges,
    Shapely.crossCount, Shapely.crossesRay, List.rotate]

theorem generate_eval_two_rects_s0 :
    ((GMapsOptimizer.init
        [[((0:ℚ),(0:ℚ)),(0,1/10),(3,1/10),(3,0)],
         [((9:ℚ)/10,(69:ℚ)/100),(9/10,51/50),(21/10,51/50),(21/10,69/100)]]
        1 0).generate_body (7/10) (701/1000)).boundary_dataframe
      = [{ lat := 7/5, lon := 701/1000, radius := 1, area_id := 2 }] := by
  simp only [GMapsOptimizer.generate_body, GMapsOptimizer.init]
  rw [if_neg (by decide)]
  norm_num [all_lats, all_lons, listMin, listMax, scaled_step,
    sweep_eval_A_lat, sweep_eval_A_lon]
  simpa using emit_eval_A

theorem generate_eval_two_rects_s37 :
    ((GMapsOptimizer.init
        [[((0:ℚ),(0:ℚ)),(0,1/10),(3,1/10),(3,0)],
         [((9:ℚ)/10,(69:ℚ)/100),(9/10,51/50),(21/10,51/50),(21/10,69/100)]]
        1 (3/7)).generate_body (7/10) (701/1000)).boundary_dataframe
      = [{ lat := 1, lon := 701/700, radius := 1, area_id := 2 },
         { lat := 2, lon := 701/700, radius := 1, area_id := 2 }] := by
  simp only [GMapsOptimizer.generate_body, GMapsOptimizer.init]
  rw [if_neg (by decide)]
  have hsA : scaled_step (7/10) (3/7) = 1 := by norm_num [scaled_step]
  have hsB : scaled_step (701/1000) (3/7) = 701/700 := by norm_num [scaled_step]
  norm_num [all_lats, all_lons, listMin, listMax, hsA, hsB,
    sweep_eval_B_lat, sweep_eval_B_lon]
  simpa using emit_eval_B

/-- C7, counterexample: same polygons, same radius, same base steps; spacing
factors `s1 = 0 <= s2 = 3/7`, both in `[0,1]` — yet the `s2` run emits 2
centers while the `s1` run emits 1: a larger spacing factor INCREASED the
center count, refuting the claimed count monotonicity. -/
theorem C7_count_counterexample :
    (0:ℚ) ≤ 3/7 ∧ (3/7:ℚ) ≤ 1 ∧
    ((GMapsOptimizer.init
        [[((0:ℚ),(0:ℚ)),(0,1/10),(3,1/10),(3,0)],
         [((9:ℚ)/10,(69:ℚ)/100),(9/10,51/50),(21/10,51/50),(21/10,69/100)]]
        1 0).generate_body (7/10) (701/1000)).boundary_dataframe.length = 1 ∧
    ((GMapsOptimizer.init
        [[((0:ℚ),(0:ℚ)),(0,1/10),(3,1/10),(3,0)],
         [((9:ℚ)/10,(69:ℚ)/100),(9/10,51/50),(21/10,51/50),(21/10,69/100)]]
        1 (3/7)).generate_body (7/10) (701/1000)).boundary_dataframe.length = 2 := by
  refine ⟨by norm_num, by norm_num, ?_, ?_⟩
  · rw [generate_eval_two_rects_s0]
    rfl
  · rw [generate_eval_two_rects_s37]
    rfl

/-! ## Helper lemmas: the DataFrame store -/

theorem heapRead_write_ne (h : PdHeap) (r j : ℕ) (v : List RRow) (hne : j ≠ r) :
    heapRead (heapWrite h r v) j = heapRead h j := by
  unfold heapRead heapWrite
  rw [List.getD_eq_getElem?_getD, List.getD_eq_getElem?_getD,
    List.getElem?_set_ne (fun hc => hne hc.symm)]

theorem heapRead_append_lt (h : PdHeap) (v : List RRow) (j : ℕ) (hj : j < h.length) :
    heapRead (h ++ [v]) j = heapRead h j := by
  unfold heapRead
  rw [List.getD_eq_getElem?_getD, List.getD_eq_getElem?_getD,
    List.getElem?_append_left hj]

theorem heapWrite_length (h : PdHeap) (r : ℕ) (v : List RRow) :
    (heapWrite h r v).length = h.length := List.length_set h r v

/-- Frame invariant of the selection loop over the store: every cell below a
low-water mark `L` that both owned references stay at or above is left
untouched by the loop, whether it exits normally or by exception. -/
theorem iterStore_frame (d : DistFn) :
    ∀ (n : ℕ) (h : PdHeap) (s : ROStore) (L : ℕ),
      L ≤ h.length → L ≤ s.dfRef → L ≤ s.resRef →
      ∀ j, j < L → heapRead (iterStore d n h s).1 j = heapRead h j := by
  intro n
  induction n with
  | zero =>
    intro h s L _ _ _ j _
    rfl
  | succ k ih =>
    intro h s L hL hdf hres j hj
    have h1 : heapRead (calcStore d h s) j = heapRead h j :=
      heapRead_write_ne _ _ _ _ (by omega)
    have h2 : heapRead (divStore (calcStore d h s) s) j = heapRead h j := by
      rw [divStore, heapRead_write_ne _ _ _ _ (by omega), h1]
    have hlen2 : (divStore (calcStore d h s) s).length = h.length := by
      rw [divStore, heapWrite_length, calcStore, heapWrite_length]
    rcases hsel : selStore (divStore (calcStore d h s) s) s with _ | hs
    · rw [iterStore, hsel]
      exact h2
    · rw [iterStore, hsel]
      dsimp only
      unfold selStore at hsel
      rcases hidx : idxmin (heapRead (divStore (calcStore d h s) s) s.dfRef) with _ | nr
      · rw [hidx] at hsel
        exact absurd hsel (by simp)
      · rw [hidx] at hsel
        dsimp only [heapAlloc] at hsel
        simp only [Option.some.injEq] at hsel
        rw [← hsel]
        dsimp only
        have hlen3 : ((divStore (calcStore d h s) s) ++
            [heapRead (divStore (calcStore d h s) s) s.resRef ++ [nr]]).length
            = h.length + 1 := by
          rw [List.length_append, hlen2]
          rfl
        rw [ih _ _ L (by rw [List.length_append, hlen3]; omega)
          (by dsimp only; omega) (by dsimp only; rw [hlen2]; omega) j hj]
        rw [heapRead_append_lt _ _ j (by rw [hlen3]; omega),
          heapRead_append_lt _ _ j (by rw [hlen2]; omega)]
        exact h2

/-! ## C9: the caller's DataFrame is never modified -/

/-- C9 (confirmed): in the store-level model, `__init__` copies the caller's
frame into a freshly allocated cell (`df.copy()`), and every in-place write
or reallocation of the run targets cells allocated at or after construction;
so after construction and after `iterate_selection` — normal exit or raise —
every pre-existing store cell, in particular the caller's DataFrame, is
unchanged. -/
theorem C9_caller_frame_preserved (d : DistFn) (h : PdHeap) (caller : ℕ)
    (rp : GeoPt) (n : ℕ) (j : ℕ) (hj : j < h.length) :
    heapRead (initStore h caller rp n).1 j = heapRead h j ∧
    heapRead (iterateSelectionStore d (initStore h caller rp n).1
      (initStore h caller rp n).2).1 j = heapRead h j := by
  have hinitread : heapRead (initStore h caller rp n).1 j = heapRead h j := by
    rw [show (initStore h caller rp n).1 = (h ++ [heapRead h caller]) ++ [[]] from rfl]
    rw [heapRead_append_lt _ _ j (by simp; omega), heapRead_append_lt _ _ j hj]
  refine ⟨hinitread, ?_⟩
  have hout : (iterateSelectionStore d (initStore h caller rp n).1
      (initStore h caller rp n).2).1
      = (iterStore d (initStore h caller rp n).2.n_points (initStore h caller rp n).1
          (initStore h caller rp n).2).1 := by
    unfold iterateSelectionStore
    dsimp only
    rcases hX : (iterStore d (initStore h caller rp n).2.n_points
        (initStore h caller rp n).1 (initStore h caller rp n).2).2 with _ | s2 <;>
      rfl
  rw [hout]
  have hdfr : (initStore h caller rp n).2.dfRef = h.length := rfl
  have hresr : (initStore h caller rp n).2.resRef = h.length + 1 := by
    simp [initStore, heapAlloc]
  have hlen1 : (initStore h caller rp n).1.length = h.length + 2 := by
    simp [initStore, heapAlloc]
  rw [iterStore_frame d _ _ _ h.length (by omega) (by omega) (by omega) j hj]
  exact hinitread

theorem C9_caller_frame_preserved_witness :
    (0 < ([[⟨1, 0, 0, 1, 0, 0⟩]] : PdHeap).length) ∧
    (heapRead (initStore [[⟨1, 0, 0, 1, 0, 0⟩]] 0 (0, 0) 1).1 0 =
        heapRead [[⟨1, 0, 0, 1, 0, 0⟩]] 0 ∧
     heapRead (iterateSelectionStore (fun _ _ => 0)
        (initStore [[⟨1, 0, 0, 1, 0, 0⟩]] 0 (0, 0) 1).1
        (initStore [[⟨1, 0, 0, 1, 0, 0⟩]] 0 (0, 0) 1).2).1 0 =
        heapRead [[⟨1, 0, 0, 1, 0, 0⟩]] 0) :=
  ⟨by decide,
    C9_caller_frame_preserved (fun _ _ => 0) [[⟨1, 0, 0, 1, 0, 0⟩]] 0 (0, 0) 1 0 (by decide)⟩
